import Mathlib

/-!
Shallow embedding of the SSM-document custom-resource lambda
(src/lambda/index.ts of cdk-ssm-document) and proofs about its
reconciliation logic: the Create/Update/Delete operations, the four-step
update pipeline, the tag differ, and the module-scoped latest-version
variable.

Remote calls are modelled by an oracle (structure SSM) giving the outcome
of each kind of AWS SSM call; every operation returns its result together
with the trace of remote calls it issued, so call counts and parameters
are provable.  The module-level variable latestVersion of the JS file is
threaded explicitly as an Option String (undefined = none), including
across invocations of the handler within one process (runUpdates), since
the JS var is never reset and survives in a warm container.
-/

set_option autoImplicit false

namespace SsmDoc

/-- A tag as sent to SSM: a Key/Value pair of strings. -/
structure Tag where
  Key : String
  Value : String
deriving DecidableEq

/-- The resource properties the lambda reads from an event.  JSON keys the
code accesses are modelled as fields; optional JSON keys are Option.  Note
the source reads both TargetType (in Create) and targetType (in
updateDocument): these are two distinct JS properties, kept distinct here.
Content is modelled by its JSON serialization (the code only ever uses
JSON.stringify of it, for comparison and for sending). -/
structure Properties where
  Name : String
  Content : String
  DocumentType : String
  TargetType : Option String
  targetType : Option String
  StackName : String
  Tags : Option (List (String × String))
  UpdateDefaultVersion : Option String
deriving DecidableEq

/-- The parts of a lifecycle event the lambda reads. -/
structure Event where
  StackId : String
  LogicalResourceId : String
  ResourceProperties : Properties
  OldResourceProperties : Properties
  responseValues : List (String × String)
deriving DecidableEq

/-- event.addResponseValue(key, value) appends a response key/value pair. -/
def Event.addResponseValue (event : Event) (k v : String) : Event :=
  { event with responseValues := event.responseValues ++ [(k, v)] }

/-- An AWS SDK error; code is the machine-readable error code.  A plain JS
exception (such as a TypeError) has no code, modelled as none. -/
structure AwsError where
  code : Option String
deriving DecidableEq

/-- The TypeError thrown by reading toLowerCase of undefined: it carries no
AWS error code. -/
def jsTypeError : AwsError := { code := none }

/-- One remote SSM call with the parameters the lambda passes. -/
inductive SSMCall where
  | createDocument (Name Content DocumentType TargetType : String)
      (Tags : List Tag)
  | updateDocument (Name Content TargetType DocumentVersion : String)
  | addTagsToResource (ResourceType ResourceId : String) (Tags : List Tag)
  | removeTagsFromResource (ResourceId ResourceType : String)
      (TagKeys : List String)
  | updateDocumentDefaultVersion (Name DocumentVersion : String)
  | deleteDocument (Name : String)
deriving DecidableEq

/-- Oracle for the remote service: the outcome each kind of call would
have in this invocation (each kind is issued at most once per invocation).
updateDocument returns the new LatestVersion string on success. -/
structure SSM where
  createResult : Except AwsError Unit
  updateResult : Except AwsError String
  addTagsResult : Except AwsError Unit
  removeTagsResult : Except AwsError Unit
  promoteResult : Except AwsError Unit
  deleteResult : Except AwsError Unit

/-- The outcome of an operation: the promise result (resolved event or
rejection error) together with the ordered trace of remote calls issued. -/
structure Outcome where
  result : Except AwsError Event
  calls : List SSMCall

/-- const defaultTargetType: the root target type. -/
def defaultTargetType : String := "/"

/-- JS (x || d) on an optional string: undefined and the empty string are
falsy and yield the default. -/
def jsOr (o : Option String) (d : String) : String :=
  match o with
  | none => d
  | some s => if s = "" then d else s

/-- JS falsiness of the latestVersion variable (string or undefined):
undefined and the empty string are falsy. -/
def jsFalsyStr (o : Option String) : Bool :=
  match o with
  | none => true
  | some s => s = ""

/-- JS String.prototype.toLowerCase, lowercasing each character (the flags
compared in this program are plain ASCII words). -/
def jsToLower (s : String) : String := ⟨s.data.map Char.toLower⟩

/-- makeTags(event, properties): the three system tags followed by the
entries of properties.Tags in key order (absent mapping contributes
nothing). -/
def makeTags (event : Event) (properties : Properties) : List Tag :=
  [{ Key := "aws-cloudformation:stack-id", Value := event.StackId },
   { Key := "aws-cloudformation:stack-name", Value := properties.StackName },
   { Key := "aws-cloudformation:logical-id",
     Value := event.LogicalResourceId }]
  ++ (match properties.Tags with
      | none => []
      | some userTags =>
          userTags.map (fun kv => { Key := kv.1, Value := kv.2 }))

/-- missingTags(newTags): the predicate selecting tags whose key matches no
entry of newTags. -/
def missingTags (newTags : List Tag) : Tag → Bool :=
  fun currentTag =>
    (newTags.filter (fun newTag => newTag.Key == currentTag.Key)).length == 0

/-- getMissingTags(oldTags, newTags): keys of oldTags entries whose key is
absent from newTags, in oldTags order. -/
def getMissingTags (oldTags newTags : List Tag) : List String :=
  (oldTags.filter (missingTags newTags)).map (fun tag => tag.Key)

/-- Create(event): one createDocument call; on success the Name response
value is added, on error the error is propagated. -/
def Create (ssm : SSM) (event : Event) : Outcome :=
  let call := SSMCall.createDocument event.ResourceProperties.Name
    event.ResourceProperties.Content
    event.ResourceProperties.DocumentType
    (jsOr event.ResourceProperties.TargetType defaultTargetType)
    (makeTags event event.ResourceProperties)
  match ssm.createResult with
  | .error err => { result := .error err, calls := [call] }
  | .ok _ =>
      { result := .ok (event.addResponseValue "Name"
          event.ResourceProperties.Name),
        calls := [call] }

/-- Step 1, updateDocument(event): no-op when serialized content and
effective targetType (lower-case property, as the source reads it here)
are unchanged; otherwise one updateDocument call on the $LATEST version.
DuplicateDocumentContent errors resolve benignly; other errors reject;
success stores the new LatestVersion in the module-level latestVersion
variable (threaded explicitly). -/
def updateDocument (ssm : SSM) (latestVersion : Option String)
    (event : Event) : Outcome × Option String :=
  if event.ResourceProperties.Content = event.OldResourceProperties.Content ∧
      jsOr event.ResourceProperties.targetType defaultTargetType =
        jsOr event.OldResourceProperties.targetType defaultTargetType then
    ({ result := .ok event, calls := [] }, latestVersion)
  else
    let call := SSMCall.updateDocument event.ResourceProperties.Name
      event.ResourceProperties.Content
      (jsOr event.ResourceProperties.targetType defaultTargetType)
      "$LATEST"
    match ssm.updateResult with
    | .error err =>
        if err.code = some "DuplicateDocumentContent" then
          ({ result := .ok event, calls := [call] }, latestVersion)
        else
          ({ result := .error err, calls := [call] }, latestVersion)
    | .ok newLatestVersion =>
        ({ result := .ok event, calls := [call] }, some newLatestVersion)

/-- Step 2, updateDocumentAddTags(event): no-op when
JSON.stringify(oldTags) equals JSON.stringify(newTags), i.e. when the two
tag lists are equal as lists; otherwise one addTagsToResource call pushing
the full new tag list. -/
def updateDocumentAddTags (ssm : SSM) (event : Event) : Outcome :=
  let oldTags := makeTags event event.OldResourceProperties
  let newTags := makeTags event event.ResourceProperties
  if oldTags = newTags then
    { result := .ok event, calls := [] }
  else
    let call := SSMCall.addTagsToResource "Document"
      event.ResourceProperties.Name newTags
    match ssm.addTagsResult with
    | .error err => { result := .error err, calls := [call] }
    | .ok _ => { result := .ok event, calls := [call] }

/-- Step 3, updateDocumentRemoveTags(event): no-op when the tag lists are
equal or no key is missing; otherwise one removeTagsFromResource call with
exactly the missing keys. -/
def updateDocumentRemoveTags (ssm : SSM) (event : Event) : Outcome :=
  let oldTags := makeTags event event.OldResourceProperties
  let newTags := makeTags event event.ResourceProperties
  let tagsToRemove := getMissingTags oldTags newTags
  if oldTags = newTags ∨ tagsToRemove.length = 0 then
    { result := .ok event, calls := [] }
  else
    let call := SSMCall.removeTagsFromResource event.ResourceProperties.Name
      "Document" tagsToRemove
    match ssm.removeTagsResult with
    | .error err => { result := .error err, calls := [call] }
    | .ok _ => { result := .ok event, calls := [call] }

/-- Step 4, updateDocumentDefaultVersion(event): the source reads
(UpdateDefaultVersion as string).toLowerCase() — when the property is
absent this throws a TypeError, rejecting the promise.  Otherwise: no-op
unless the flag lowercases to true; no-op when the module variable
latestVersion is falsy; otherwise one updateDocumentDefaultVersion call
with the stored version. -/
def updateDocumentDefaultVersion (ssm : SSM) (latestVersion : Option String)
    (event : Event) : Outcome :=
  match event.ResourceProperties.UpdateDefaultVersion with
  | none => { result := .error jsTypeError, calls := [] }
  | some flag =>
      if jsToLower flag ≠ "true" then
        { result := .ok event, calls := [] }
      else if jsFalsyStr latestVersion then
        { result := .ok event, calls := [] }
      else
        let call := SSMCall.updateDocumentDefaultVersion
          event.ResourceProperties.Name (latestVersion.getD "")
        match ssm.promoteResult with
        | .error err => { result := .error err, calls := [call] }
        | .ok _ => { result := .ok event, calls := [call] }

/-- The four update steps chained in order, each running only if the
previous resolved; the first rejection short-circuits.  On full success
the Name response value is added.  Returns the outcome, the concatenated
call trace and the module variable after step 1. -/
def updatePipeline (ssm : SSM) (latestVersion : Option String)
    (event : Event) : Outcome × Option String :=
  let s1 := updateDocument ssm latestVersion event
  match s1.1.result with
  | .error e => ({ result := .error e, calls := s1.1.calls }, s1.2)
  | .ok ev1 =>
    let s2 := updateDocumentAddTags ssm ev1
    match s2.result with
    | .error e =>
        ({ result := .error e, calls := s1.1.calls ++ s2.calls }, s1.2)
    | .ok ev2 =>
      let s3 := updateDocumentRemoveTags ssm ev2
      match s3.result with
      | .error e =>
          ({ result := .error e,
             calls := s1.1.calls ++ s2.calls ++ s3.calls }, s1.2)
      | .ok ev3 =>
        let s4 := updateDocumentDefaultVersion ssm s1.2 ev3
        match s4.result with
        | .error e =>
            ({ result := .error e,
               calls := s1.1.calls ++ s2.calls ++ s3.calls ++ s4.calls },
             s1.2)
        | .ok ev4 =>
            ({ result := .ok (ev4.addResponseValue "Name"
                 ev4.ResourceProperties.Name),
               calls := s1.1.calls ++ s2.calls ++ s3.calls ++ s4.calls },
             s1.2)

/-- Update(event): run the pipeline; a rejection whose code is
InvalidResourceId or InvalidDocument is replaced by running Create on the
same event (self-heal); any other rejection propagates unchanged. -/
def Update (ssm : SSM) (latestVersion : Option String)
    (event : Event) : Outcome × Option String :=
  let p := updatePipeline ssm latestVersion event
  match p.1.result with
  | .ok _ => p
  | .error err =>
      if err.code = some "InvalidResourceId" ∨
          err.code = some "InvalidDocument" then
        let c := Create ssm event
        ({ result := c.result, calls := p.1.calls ++ c.calls }, p.2)
      else p

/-- Delete(event): one deleteDocument call by name; any error propagates
unchanged. -/
def Delete (ssm : SSM) (event : Event) : Outcome :=
  let call := SSMCall.deleteDocument event.ResourceProperties.Name
  match ssm.deleteResult with
  | .error err => { result := .error err, calls := [call] }
  | .ok _ => { result := .ok event, calls := [call] }

/-- A sequence of update invocations inside one process: the module-level
latestVersion variable (initially undefined when the process starts) is
threaded from one invocation to the next, exactly as the JS module-scoped
var persists in a warm container. -/
def runUpdates : List (SSM × Event) → Option String →
    List Outcome × Option String
  | [], latestVersion => ([], latestVersion)
  | (ssm, event) :: rest, latestVersion =>
      let r := Update ssm latestVersion event
      let tail := runUpdates rest r.2
      (r.1 :: tail.1, tail.2)

/-- Recognizer for content-update (ssm.updateDocument) calls in a trace. -/
def isContentUpdateCall : SSMCall → Bool
  | .updateDocument _ _ _ _ => true
  | _ => false

/-- Recognizer for default-version-promotion calls in a trace. -/
def isPromoteCall : SSMCall → Bool
  | .updateDocumentDefaultVersion _ _ => true
  | _ => false

/-- The no-change condition tested by step 1: serialized content and
effective targetType agree between desired and previous state. -/
def contentUnchanged (event : Event) : Prop :=
  event.ResourceProperties.Content = event.OldResourceProperties.Content ∧
  jsOr event.ResourceProperties.targetType defaultTargetType =
    jsOr event.OldResourceProperties.targetType defaultTargetType

instance (event : Event) : Decidable (contentUnchanged event) := by
  unfold contentUnchanged
  infer_instance

/-- A base property set used by the concrete scenarios below. -/
def fixtureProps : Properties :=
  { Name := "doc", Content := "content-v1",
    DocumentType := "Command", TargetType := none, targetType := none,
    StackName := "stack", Tags := some [("a", "1"), ("b", "2")],
    UpdateDefaultVersion := some "false" }

/-- The base property set with the user tag mapping absent. -/
def fixturePropsNoTags : Properties := { fixtureProps with Tags := none }

/-- An update event with identical previous and desired state. -/
def fixtureEvent : Event :=
  { StackId := "sid", LogicalResourceId := "lid",
    ResourceProperties := fixtureProps,
    OldResourceProperties := fixtureProps, responseValues := [] }

/-- An oracle where every remote call succeeds; updates report version 2. -/
def ssmAllOk : SSM :=
  { createResult := .ok (), updateResult := .ok "2",
    addTagsResult := .ok (), removeTagsResult := .ok (),
    promoteResult := .ok (), deleteResult := .ok () }

/-- An oracle whose delete call fails. -/
def ssmDeleteGone : SSM :=
  { ssmAllOk with
      deleteResult := .error { code := some "InvalidDocument" } }

/-- An oracle whose content-update call fails with InvalidDocument. -/
def ssmGone : SSM :=
  { ssmAllOk with updateResult := .error { code := some "InvalidDocument" } }

/-- An oracle whose content-update call fails with
DuplicateDocumentContent. -/
def ssmDup : SSM :=
  { ssmAllOk with
      updateResult := .error { code := some "DuplicateDocumentContent" } }

/-- The base property set with changed content. -/
def changedProps : Properties := { fixtureProps with Content := "content-v2" }

/-- An update event whose desired content differs from the previous one. -/
def changedEvent : Event :=
  { StackId := "sid", LogicalResourceId := "lid",
    ResourceProperties := changedProps,
    OldResourceProperties := fixtureProps, responseValues := [] }

/-- The changed-content event with the updateDefaultVersion flag true. -/
def trueFlagEvent : Event :=
  { changedEvent with ResourceProperties :=
      { changedProps with UpdateDefaultVersion := some "true" } }

/-- The changed-content event with the updateDefaultVersion flag absent. -/
def noFlagEvent : Event :=
  { changedEvent with ResourceProperties :=
      { fixtureProps with UpdateDefaultVersion := none } }

/-- The changed-content event that also adds a user tag. -/
def dupEvent : Event :=
  { changedEvent with ResourceProperties :=
      { changedProps with Tags := some [("a", "1"), ("b", "2"), ("c", "3")] } }

/-- An update event whose user tags are the same set as before but listed
in a different order. -/
def permEvent : Event :=
  { fixtureEvent with ResourceProperties :=
      { fixtureProps with Tags := some [("b", "2"), ("a", "1")] } }

/-- Desired state for a second, no-change invocation with the
updateDefaultVersion flag set: content equals what invocation one wrote. -/
def leakPropsB : Properties :=
  { fixtureProps with
    Content := "content-v2",
    UpdateDefaultVersion := some "true" }

/-- A no-change update event (previous = desired) with flag true, as sent
after a successful content update. -/
def leakEventB : Event :=
  { StackId := "sid", LogicalResourceId := "lid",
    ResourceProperties := leakPropsB, OldResourceProperties := leakPropsB,
    responseValues := [] }

/-- missingTags newTags t holds exactly when no entry of newTags carries
key t.Key. -/
theorem missingTags_true_iff (newTags : List Tag) (t : Tag) :
    missingTags newTags t = true ↔ t.Key ∉ newTags.map Tag.Key := by
  simp only [missingTags, beq_iff_eq, List.length_eq_zero,
    List.filter_eq_nil_iff, List.mem_map, not_exists]
  aesop

/-- getMissingTags computed as a key-level filter over the old key list. -/
theorem getMissingTags_eq (oldTags newTags : List Tag) :
    getMissingTags oldTags newTags =
      (oldTags.map Tag.Key).filter
        (fun k => !(decide (k ∈ newTags.map Tag.Key))) := by
  induction oldTags with
  | nil => rfl
  | cons t ts ih =>
    simp only [getMissingTags, List.filter_cons, List.map_cons] at *
    by_cases h : t.Key ∈ newTags.map Tag.Key
    · have h1 : missingTags newTags t = false := by
        rw [Bool.eq_false_iff]
        intro hc
        exact (missingTags_true_iff newTags t).mp hc h
      simp [h1, h, ih]
    · have h1 : missingTags newTags t = true :=
        (missingTags_true_iff newTags t).mpr h
      simp [h1, h, ih]

/-- Step 2 issues no content-update call. -/
theorem addTags_filter_content (ssm : SSM) (event : Event) :
    (updateDocumentAddTags ssm event).calls.filter isContentUpdateCall
      = [] := by
  simp only [updateDocumentAddTags]
  split
  · rfl
  · cases ssm.addTagsResult <;> simp [isContentUpdateCall]

/-- Step 3 issues no content-update call. -/
theorem removeTags_filter_content (ssm : SSM) (event : Event) :
    (updateDocumentRemoveTags ssm event).calls.filter isContentUpdateCall
      = [] := by
  simp only [updateDocumentRemoveTags]
  split
  · rfl
  · cases ssm.removeTagsResult <;> simp [isContentUpdateCall]

/-- Step 4 issues no content-update call. -/
theorem defaultVersion_filter_content (ssm : SSM) (lv : Option String)
    (event : Event) :
    (updateDocumentDefaultVersion ssm lv event).calls.filter
      isContentUpdateCall = [] := by
  simp only [updateDocumentDefaultVersion]
  split
  · rfl
  · split
    · rfl
    · split
      · rfl
      · cases ssm.promoteResult <;> simp [isContentUpdateCall]

/-- Create issues no content-update call. -/
theorem create_filter_content (ssm : SSM) (event : Event) :
    (Create ssm event).calls.filter isContentUpdateCall = [] := by
  simp only [Create]
  cases ssm.createResult <;> simp [isContentUpdateCall]

/-- All content-update calls of the pipeline trace come from step 1. -/
theorem updatePipeline_filter_content (ssm : SSM) (lv : Option String)
    (event : Event) :
    (updatePipeline ssm lv event).1.calls.filter isContentUpdateCall =
      (updateDocument ssm lv event).1.calls.filter isContentUpdateCall := by
  cases h1 : (updateDocument ssm lv event).1.result with
  | error e => simp [updatePipeline, h1]
  | ok ev1 =>
    cases h2 : (updateDocumentAddTags ssm ev1).result with
    | error e =>
        simp [updatePipeline, h1, h2, List.filter_append,
          addTags_filter_content]
    | ok ev2 =>
      cases h3 : (updateDocumentRemoveTags ssm ev2).result with
      | error e =>
          simp [updatePipeline, h1, h2, h3, List.filter_append,
            addTags_filter_content, removeTags_filter_content]
      | ok ev3 =>
        cases h4 : (updateDocumentDefaultVersion ssm
            (updateDocument ssm lv event).2 ev3).result with
        | error e =>
            simp [updatePipeline, h1, h2, h3, h4, List.filter_append,
              addTags_filter_content, removeTags_filter_content,
              defaultVersion_filter_content]
        | ok ev4 =>
            simp [updatePipeline, h1, h2, h3, h4, List.filter_append,
              addTags_filter_content, removeTags_filter_content,
              defaultVersion_filter_content]

/-- All content-update calls of the full Update trace come from step 1
(the self-heal Create adds none). -/
theorem update_filter_content (ssm : SSM) (lv : Option String)
    (event : Event) :
    (Update ssm lv event).1.calls.filter isContentUpdateCall =
      (updateDocument ssm lv event).1.calls.filter isContentUpdateCall := by
  have hpipe := updatePipeline_filter_content ssm lv event
  cases hp : (updatePipeline ssm lv event).1.result with
  | ok ev => simpa [Update, hp] using hpipe
  | error err =>
    by_cases hc : err.code = some "InvalidResourceId" ∨
        err.code = some "InvalidDocument"
    · simp [Update, hp, hc, List.filter_append, create_filter_content, hpipe]
    · simpa [Update, hp, hc] using hpipe

/-- Step 1 issues no call when nothing changed, and exactly one
updateDocument call on $LATEST otherwise. -/
theorem updateDocument_calls (ssm : SSM) (lv : Option String)
    (event : Event) :
    (updateDocument ssm lv event).1.calls =
      if contentUnchanged event then []
      else [SSMCall.updateDocument event.ResourceProperties.Name
        event.ResourceProperties.Content
        (jsOr event.ResourceProperties.targetType defaultTargetType)
        "$LATEST"] := by
  by_cases h : contentUnchanged event
  all_goals
    have h2 := h
    unfold contentUnchanged at h2
  · rw [if_pos h]
    simp [updateDocument, if_pos h2]
  · rw [if_neg h]
    simp only [updateDocument, if_neg h2]
    cases ssm.updateResult with
    | error err =>
        by_cases hc : err.code = some "DuplicateDocumentContent" <;>
          simp [hc]
    | ok v => rfl

/-- When the computed tag lists differ, step 2 records exactly one addTags
call pushing the full new tag list, whatever the remote outcome. -/
theorem addTags_calls_of_ne (ssm : SSM) (event : Event)
    (h : makeTags event event.OldResourceProperties ≠
      makeTags event event.ResourceProperties) :
    (updateDocumentAddTags ssm event).calls =
      [SSMCall.addTagsToResource "Document" event.ResourceProperties.Name
        (makeTags event event.ResourceProperties)] := by
  simp only [updateDocumentAddTags, if_neg h]
  cases ssm.addTagsResult <;> rfl

/-- When step 2 succeeds remotely it resolves with the same event. -/
theorem addTags_result_ok (ssm : SSM) (event : Event)
    (h : ssm.addTagsResult = .ok ()) :
    (updateDocumentAddTags ssm event).result = .ok event := by
  simp only [updateDocumentAddTags]
  split
  · rfl
  · simp [h]

/-- When step 3 succeeds remotely it resolves with the same event. -/
theorem removeTags_result_ok (ssm : SSM) (event : Event)
    (h : ssm.removeTagsResult = .ok ()) :
    (updateDocumentRemoveTags ssm event).result = .ok event := by
  simp only [updateDocumentRemoveTags]
  split
  · rfl
  · simp [h]

/-- Step 1 issues no promote call. -/
theorem updateDocument_filter_promote (ssm : SSM) (lv : Option String)
    (event : Event) :
    (updateDocument ssm lv event).1.calls.filter isPromoteCall = [] := by
  rw [updateDocument_calls]
  split <;> simp [isPromoteCall]

/-- Step 2 issues no promote call. -/
theorem addTags_filter_promote (ssm : SSM) (event : Event) :
    (updateDocumentAddTags ssm event).calls.filter isPromoteCall = [] := by
  simp only [updateDocumentAddTags]
  split
  · rfl
  · cases ssm.addTagsResult <;> simp [isPromoteCall]

/-- Step 3 issues no promote call. -/
theorem removeTags_filter_promote (ssm : SSM) (event : Event) :
    (updateDocumentRemoveTags ssm event).calls.filter isPromoteCall
      = [] := by
  simp only [updateDocumentRemoveTags]
  split
  · rfl
  · cases ssm.removeTagsResult <;> simp [isPromoteCall]

/-- Create issues no promote call. -/
theorem create_filter_promote (ssm : SSM) (event : Event) :
    (Create ssm event).calls.filter isPromoteCall = [] := by
  simp only [Create]
  cases ssm.createResult <;> simp [isPromoteCall]

/-- Every call step 4 issues is a promote call. -/
theorem defaultVersion_filter_promote (ssm : SSM) (lv : Option String)
    (event : Event) :
    (updateDocumentDefaultVersion ssm lv event).calls.filter isPromoteCall =
      (updateDocumentDefaultVersion ssm lv event).calls := by
  simp only [updateDocumentDefaultVersion]
  split
  · rfl
  · split
    · rfl
    · split
      · rfl
      · cases ssm.promoteResult <;> simp [isPromoteCall]

/-- When steps 1 to 3 resolve, the pipeline trace is the concatenation of
all four step traces. -/
theorem updatePipeline_ok_steps (ssm : SSM) (lv : Option String)
    (event : Event)
    (h1 : (updateDocument ssm lv event).1.result = .ok event)
    (haddok : ssm.addTagsResult = .ok ())
    (hremok : ssm.removeTagsResult = .ok ()) :
    (updatePipeline ssm lv event).1.calls =
      (updateDocument ssm lv event).1.calls ++
      (updateDocumentAddTags ssm event).calls ++
      (updateDocumentRemoveTags ssm event).calls ++
      (updateDocumentDefaultVersion ssm (updateDocument ssm lv event).2
        event).calls := by
  have h2 := addTags_result_ok ssm event haddok
  have h3 := removeTags_result_ok ssm event hremok
  cases h4 : (updateDocumentDefaultVersion ssm (updateDocument ssm lv event).2
      event).result with
  | error e => simp [updatePipeline, h1, h2, h3, h4]
  | ok ev4 => simp [updatePipeline, h1, h2, h3, h4]

/-- When steps 1 to 3 resolve, the promote calls of the full Update trace
are exactly those recorded by step 4. -/
theorem update_filter_promote (ssm : SSM) (lv : Option String) (event : Event)
    (h1 : (updateDocument ssm lv event).1.result = .ok event)
    (haddok : ssm.addTagsResult = .ok ())
    (hremok : ssm.removeTagsResult = .ok ()) :
    (Update ssm lv event).1.calls.filter isPromoteCall =
      (updateDocumentDefaultVersion ssm (updateDocument ssm lv event).2
        event).calls := by
  have hcallsd := updatePipeline_ok_steps ssm lv event h1 haddok hremok
  have hfilter : (updatePipeline ssm lv event).1.calls.filter isPromoteCall =
      (updateDocumentDefaultVersion ssm (updateDocument ssm lv event).2
        event).calls := by
    rw [hcallsd]
    simp [List.filter_append, updateDocument_filter_promote,
      addTags_filter_promote, removeTags_filter_promote,
      defaultVersion_filter_promote]
  cases hp : (updatePipeline ssm lv event).1.result with
  | ok ev => simpa [Update, hp] using hfilter
  | error err =>
    by_cases hcode : err.code = some "InvalidResourceId" ∨
        err.code = some "InvalidDocument"
    · simp [Update, hp, hcode, List.filter_append, create_filter_promote,
        hfilter]
    · simpa [Update, hp, hcode] using hfilter

/-- C1: refuted on the code — the module-level latestVersion variable is
never reset, so it persists across invocations within one process.  In a
two-invocation run starting from a fresh process, invocation one performs
a content change (the remote reports new version 2) and invocation two is
a no-change update with updateDefaultVersion true: invocation two issues
no content-update call (its trace holds no updateDocument call, so step 1
produced no new version in that invocation), yet it issues one
promoteDefaultVersion call using the stale version 2 recorded by the
earlier invocation — the claim requires zero promote calls there. -/
theorem c1_stale_latest_version_promotes :
    ((runUpdates [(ssmAllOk, changedEvent), (ssmAllOk, leakEventB)]
        none).1.map Outcome.calls) =
      [[SSMCall.updateDocument "doc" "content-v2" "/" "$LATEST"],
       [SSMCall.updateDocumentDefaultVersion "doc" "2"]] := by
  decide

/-- C2: if the update pipeline rejects with code InvalidResourceId or
InvalidDocument, Update runs Create on the current desired state and
resolves with its result, which (when Create succeeds) carries the Name
response value; every error with any other code propagates unchanged. -/
theorem c2_self_heal (ssm : SSM) (lv : Option String) (event : Event)
    (err : AwsError)
    (h : (updatePipeline ssm lv event).1.result = .error err) :
    ((err.code = some "InvalidResourceId" ∨
        err.code = some "InvalidDocument") →
      (Update ssm lv event).1.result = (Create ssm event).result ∧
      (∀ ev, (Create ssm event).result = .ok ev →
        ("Name", event.ResourceProperties.Name) ∈ ev.responseValues)) ∧
    (err.code ≠ some "InvalidResourceId" →
      err.code ≠ some "InvalidDocument" →
      (Update ssm lv event).1.result = .error err) := by
  constructor
  · intro hcode
    constructor
    · simp [Update, h, hcode]
    · intro ev hev
      cases hcr : ssm.createResult with
      | error e => simp [Create, hcr] at hev
      | ok u =>
          simp [Create, hcr] at hev
          rw [← hev]
          simp [Event.addResponseValue]
  · intro hn1 hn2
    have hcode : ¬(err.code = some "InvalidResourceId" ∨
        err.code = some "InvalidDocument") := by
      rintro (hh | hh)
      · exact hn1 hh
      · exact hn2 hh
    simp [Update, h, hcode]

/-- C2 witness: with the content-update call failing with InvalidDocument
on a changed-content event, Update resolves with the result of Create. -/
theorem c2_self_heal_witness :
    (Update ssmGone none changedEvent).1.result =
      (Create ssmGone changedEvent).result :=
  ((c2_self_heal ssmGone none changedEvent
      { code := some "InvalidDocument" } rfl).1 (Or.inr rfl)).1

/-- C3: when the remote content-update call fails with
DuplicateDocumentContent, step 1 resolves benignly with no new version
recorded, and the pipeline continues to the tag steps (when the tag lists
differ, the addTags call appears in the pipeline trace); any other remote
error rejects the step. -/
theorem c3_duplicate_benign (ssm : SSM) (lv : Option String) (event : Event)
    (err : AwsError) (hchange : ¬contentUnchanged event)
    (herr : ssm.updateResult = .error err) :
    (err.code = some "DuplicateDocumentContent" →
      (updateDocument ssm lv event).1.result = .ok event ∧
      (updateDocument ssm lv event).2 = lv ∧
      (makeTags event event.OldResourceProperties ≠
          makeTags event event.ResourceProperties →
        SSMCall.addTagsToResource "Document" event.ResourceProperties.Name
            (makeTags event event.ResourceProperties) ∈
          (updatePipeline ssm lv event).1.calls)) ∧
    (err.code ≠ some "DuplicateDocumentContent" →
      (updateDocument ssm lv event).1.result = .error err) := by
  have h2 := hchange
  unfold contentUnchanged at h2
  constructor
  · intro hdup
    have hstep : updateDocument ssm lv event =
        ({ result := .ok event,
           calls := [SSMCall.updateDocument event.ResourceProperties.Name
             event.ResourceProperties.Content
             (jsOr event.ResourceProperties.targetType defaultTargetType)
             "$LATEST"] }, lv) := by
      simp [updateDocument, if_neg h2, herr, hdup]
    refine ⟨by rw [hstep], by rw [hstep], ?_⟩
    intro htags
    have haddcalls := addTags_calls_of_ne ssm event htags
    cases hr2 : (updateDocumentAddTags ssm event).result with
    | error e =>
        simp [updatePipeline, hstep, hr2, haddcalls]
    | ok ev2 =>
        cases hr3 : (updateDocumentRemoveTags ssm ev2).result with
        | error e =>
            simp [updatePipeline, hstep, hr2, hr3, haddcalls]
        | ok ev3 =>
            cases hr4 : (updateDocumentDefaultVersion ssm lv ev3).result with
            | error e =>
                simp [updatePipeline, hstep, hr2, hr3, hr4, haddcalls]
            | ok ev4 =>
                simp [updatePipeline, hstep, hr2, hr3, hr4, haddcalls]
  · intro hne
    simp [updateDocument, if_neg h2, herr, hne]

/-- C3 witness: with a duplicate-content failure on an event that changes
content and adds a tag, the addTags call still appears in the pipeline
trace — the pipeline continued past step 1. -/
theorem c3_duplicate_benign_witness :
    SSMCall.addTagsToResource "Document" "doc"
        (makeTags dupEvent dupEvent.ResourceProperties) ∈
      (updatePipeline ssmDup none dupEvent).1.calls :=
  ((c3_duplicate_benign ssmDup none dupEvent
      { code := some "DuplicateDocumentContent" } (by decide) rfl).1
    rfl).2.2 (by decide)

/-- C4: the Update trace holds zero content-update calls exactly when
serialized content and effective targetType are unchanged; any change
yields exactly one updateDocument call targeting $LATEST; identical
desired and previous properties yield zero content-update calls. -/
theorem c4_content_update_calls_iff (ssm : SSM) (lv : Option String)
    (event : Event) :
    ((Update ssm lv event).1.calls.filter isContentUpdateCall = [] ↔
      contentUnchanged event) ∧
    (¬contentUnchanged event →
      (Update ssm lv event).1.calls.filter isContentUpdateCall =
        [SSMCall.updateDocument event.ResourceProperties.Name
          event.ResourceProperties.Content
          (jsOr event.ResourceProperties.targetType defaultTargetType)
          "$LATEST"]) ∧
    (event.ResourceProperties = event.OldResourceProperties →
      (Update ssm lv event).1.calls.filter isContentUpdateCall = []) := by
  have hkey := update_filter_content ssm lv event
  have hcalls := updateDocument_calls ssm lv event
  by_cases h : contentUnchanged event
  · refine ⟨?_, ?_, ?_⟩
    · rw [hkey, hcalls, if_pos h]
      simp [h]
    · intro hc
      exact absurd h hc
    · intro _
      rw [hkey, hcalls, if_pos h]
      rfl
  · refine ⟨?_, ?_, ?_⟩
    · rw [hkey, hcalls, if_neg h]
      simp [isContentUpdateCall, h]
    · intro _
      rw [hkey, hcalls, if_neg h]
      simp [isContentUpdateCall]
    · intro heq
      exact absurd (⟨by rw [heq], by rw [heq]⟩ : contentUnchanged event) h

/-- C4 witness: a content change yields exactly one updateDocument call on
$LATEST with the effective targetType defaulted to the root. -/
theorem c4_content_update_calls_iff_witness :
    (Update ssmAllOk none changedEvent).1.calls.filter isContentUpdateCall =
      [SSMCall.updateDocument "doc" "content-v2" "/" "$LATEST"] :=
  (c4_content_update_calls_iff ssmAllOk none changedEvent).2.1 (by decide)

/-- C5 counterexample: with the updateDefaultVersion flag absent, step 4
is not a no-op — reading toLowerCase of undefined throws, so the step
rejects with a TypeError (and the whole Update rejects, since a TypeError
carries none of the self-heal codes). -/
theorem c5_absent_flag_rejects :
    updateDocumentDefaultVersion ssmAllOk (some "5") noFlagEvent =
      { result := .error jsTypeError, calls := [] } ∧
    (updateDocumentDefaultVersion ssmAllOk
      (some "5") noFlagEvent).result.isOk = false :=
  ⟨rfl, rfl⟩

/-- C5 amended: step 4 proceeds to a promote call only when the flag is
present, lowercases to true and the recorded latest version is truthy; it
is a no-op for every other present flag value; an absent flag makes the
step reject with a TypeError.  At pipeline level, a content change giving
a new version with flag true yields exactly one promote call with that
version; flag false yields zero promote calls. -/
theorem c5_default_version_amended (ssm : SSM) (lv : Option String)
    (event : Event) :
    (event.ResourceProperties.UpdateDefaultVersion = none →
      updateDocumentDefaultVersion ssm lv event =
        { result := .error jsTypeError, calls := [] }) ∧
    (∀ flag, event.ResourceProperties.UpdateDefaultVersion = some flag →
      (jsToLower flag ≠ "true" →
        updateDocumentDefaultVersion ssm lv event =
          { result := .ok event, calls := [] }) ∧
      (jsToLower flag = "true" → jsFalsyStr lv = true →
        updateDocumentDefaultVersion ssm lv event =
          { result := .ok event, calls := [] }) ∧
      (∀ v, jsToLower flag = "true" → lv = some v → v ≠ "" →
        (updateDocumentDefaultVersion ssm lv event).calls =
          [SSMCall.updateDocumentDefaultVersion
            event.ResourceProperties.Name v])) ∧
    (∀ v, ssm.updateResult = .ok v → v ≠ "" → ¬contentUnchanged event →
      ssm.addTagsResult = .ok () → ssm.removeTagsResult = .ok () →
      (event.ResourceProperties.UpdateDefaultVersion = some "true" →
        (Update ssm lv event).1.calls.filter isPromoteCall =
          [SSMCall.updateDocumentDefaultVersion
            event.ResourceProperties.Name v]) ∧
      (event.ResourceProperties.UpdateDefaultVersion = some "false" →
        (Update ssm lv event).1.calls.filter isPromoteCall = [])) := by
  refine ⟨?_, ?_, ?_⟩
  · intro h
    simp [updateDocumentDefaultVersion, h]
  · intro flag hflag
    refine ⟨?_, ?_, ?_⟩
    · intro hne
      simp [updateDocumentDefaultVersion, hflag, hne]
    · intro htrue hfalsy
      simp [updateDocumentDefaultVersion, hflag, htrue, hfalsy]
    · intro v htrue hlv hv
      subst hlv
      simp only [updateDocumentDefaultVersion, hflag, htrue, jsFalsyStr,
        ne_eq, not_true_eq_false, if_false, decide_eq_true_eq, hv,
        if_neg, Option.getD_some]
      cases ssm.promoteResult <;> simp [hv]
  · intro v hupd hv hchange haddok hremok
    have h2 := hchange
    unfold contentUnchanged at h2
    have hstep : updateDocument ssm lv event =
        ({ result := .ok event,
           calls := [SSMCall.updateDocument event.ResourceProperties.Name
             event.ResourceProperties.Content
             (jsOr event.ResourceProperties.targetType defaultTargetType)
             "$LATEST"] }, some v) := by
      simp [updateDocument, if_neg h2, hupd]
    have hkey := update_filter_promote ssm lv event (by rw [hstep]) haddok
      hremok
    rw [hstep] at hkey
    constructor
    · intro hflag
      rw [hkey]
      have htl : jsToLower "true" = "true" := rfl
      simp only [updateDocumentDefaultVersion, hflag, htl, jsFalsyStr,
        ne_eq, not_true_eq_false, if_false, decide_eq_true_eq, hv,
        if_neg, Option.getD_some]
      cases ssm.promoteResult <;> simp [hv]
    · intro hflag
      rw [hkey]
      have htl : jsToLower "false" = "false" := rfl
      have hft : ("false" : String) ≠ "true" := by decide
      simp [updateDocumentDefaultVersion, hflag, htl, hft]

/-- C5 amended witness: content change to version 2, all tag steps
succeeding, flag true: the Update trace holds exactly one promote call
using version 2. -/
theorem c5_default_version_amended_witness :
    (Update ssmAllOk none trueFlagEvent).1.calls.filter isPromoteCall =
      [SSMCall.updateDocumentDefaultVersion "doc" "2"] :=
  ((c5_default_version_amended ssmAllOk none trueFlagEvent).2.2 "2" rfl
    (by decide) (by decide) rfl rfl).1 rfl

/-- C6 counterexample: an event whose previous and desired tag sets are
the same set (a permutation), yet step 2 is not a no-op — the comparison
is JSON.stringify of the lists, which is order-sensitive, so a full
addTags call is issued. -/
theorem c6_permuted_tags_not_noop :
    (makeTags permEvent permEvent.OldResourceProperties).Perm
      (makeTags permEvent permEvent.ResourceProperties) ∧
    (updateDocumentAddTags ssmAllOk permEvent).calls =
      [SSMCall.addTagsToResource "Document" "doc"
        [{ Key := "aws-cloudformation:stack-id", Value := "sid" },
         { Key := "aws-cloudformation:stack-name", Value := "stack" },
         { Key := "aws-cloudformation:logical-id", Value := "lid" },
         { Key := "b", Value := "2" },
         { Key := "a", Value := "1" }]] := by
  constructor
  · decide
  · rfl

/-- C6 amended: the tag-addition step is a no-op exactly when the old and
new computed tag lists are identical as lists (same entries in the same
order — the code compares serialized lists, which is order-sensitive);
otherwise it pushes the full new tag list in a single addTags call. -/
theorem c6_add_tags_on_list_change (ssm : SSM) (event : Event) :
    ((updateDocumentAddTags ssm event).calls = [] ↔
      makeTags event event.OldResourceProperties =
        makeTags event event.ResourceProperties) ∧
    (makeTags event event.OldResourceProperties =
        makeTags event event.ResourceProperties →
      updateDocumentAddTags ssm event =
        { result := .ok event, calls := [] }) ∧
    (makeTags event event.OldResourceProperties ≠
        makeTags event event.ResourceProperties →
      (updateDocumentAddTags ssm event).calls =
        [SSMCall.addTagsToResource "Document" event.ResourceProperties.Name
          (makeTags event event.ResourceProperties)]) := by
  by_cases h : makeTags event event.OldResourceProperties =
      makeTags event event.ResourceProperties
  · refine ⟨?_, ?_, ?_⟩
    · simp [updateDocumentAddTags, h]
    · intro _
      simp [updateDocumentAddTags, h]
    · intro hc
      exact absurd h hc
  · refine ⟨?_, ?_, ?_⟩
    · rw [addTags_calls_of_ne ssm event h]
      simp [h]
    · intro hc
      exact absurd hc h
    · intro _
      exact addTags_calls_of_ne ssm event h

/-- C6 amended witness: the permuted-tags event is not a no-op — one
addTags call pushing the full new tag list. -/
theorem c6_add_tags_on_list_change_witness :
    (updateDocumentAddTags ssmAllOk permEvent).calls =
      [SSMCall.addTagsToResource "Document"
        permEvent.ResourceProperties.Name
        (makeTags permEvent permEvent.ResourceProperties)] :=
  (c6_add_tags_on_list_change ssmAllOk permEvent).2.2 (by decide)

/-- C7: the tag-removal key computation returns exactly the keys of
oldTags entries whose key does not occur in newTags, in oldTags order,
with membership decided by key alone; the concrete instances of the spec
hold, including a value-only change yielding no missing key. -/
theorem c7_getMissingTags_keys :
    (∀ oldTags newTags : List Tag,
      getMissingTags oldTags newTags =
        (oldTags.map Tag.Key).filter
          (fun k => !(decide (k ∈ newTags.map Tag.Key)))) ∧
    getMissingTags [⟨"A", "1"⟩, ⟨"B", "2"⟩, ⟨"C", "3"⟩]
        [⟨"B", "9"⟩, ⟨"D", "4"⟩] = ["A", "C"] ∧
    getMissingTags [⟨"A", "1"⟩] [⟨"A", "2"⟩] = [] :=
  ⟨getMissingTags_eq, by decide, by decide⟩

/-- C8: the computed tag list always begins with the three system-derived
tags recomputed from the event and properties, followed by every entry of
the user tag mapping; an absent mapping yields exactly the three system
tags. -/
theorem c8_makeTags_system_first (event : Event) (properties : Properties) :
    makeTags event properties =
      { Key := "aws-cloudformation:stack-id", Value := event.StackId } ::
      { Key := "aws-cloudformation:stack-name",
        Value := properties.StackName } ::
      { Key := "aws-cloudformation:logical-id",
        Value := event.LogicalResourceId } ::
      (properties.Tags.getD []).map
        (fun kv => { Key := kv.1, Value := kv.2 }) ∧
    (properties.Tags = none →
      makeTags event properties =
        [{ Key := "aws-cloudformation:stack-id", Value := event.StackId },
         { Key := "aws-cloudformation:stack-name",
           Value := properties.StackName },
         { Key := "aws-cloudformation:logical-id",
           Value := event.LogicalResourceId }]) := by
  constructor
  · cases h : properties.Tags <;> simp [makeTags, h]
  · intro h
    simp [makeTags, h]

/-- C8 witness: with the user tag mapping absent, exactly the three
system tags are produced. -/
theorem c8_makeTags_system_first_witness :
    makeTags fixtureEvent fixturePropsNoTags =
      [{ Key := "aws-cloudformation:stack-id", Value := "sid" },
       { Key := "aws-cloudformation:stack-name", Value := "stack" },
       { Key := "aws-cloudformation:logical-id", Value := "lid" }] :=
  (c8_makeTags_system_first fixtureEvent fixturePropsNoTags).2 rfl

/-- C9: Delete issues exactly one deleteDocument call by name and
propagates every remote error unchanged — no benign classification for an
already-deleted document. -/
theorem c9_delete_propagates (ssm : SSM) (event : Event) :
    (Delete ssm event).calls =
      [SSMCall.deleteDocument event.ResourceProperties.Name] ∧
    (∀ err, ssm.deleteResult = .error err →
      (Delete ssm event).result = .error err) ∧
    (∀ u, ssm.deleteResult = .ok u →
      (Delete ssm event).result = .ok event) := by
  refine ⟨?_, ?_, ?_⟩
  · cases h : ssm.deleteResult <;> simp [Delete, h]
  · intro err h
    simp [Delete, h]
  · intro u h
    simp [Delete, h]

/-- C9 witness: a delete failing remotely with InvalidDocument (document
already gone) rejects with that very error. -/
theorem c9_delete_propagates_witness :
    (Delete ssmDeleteGone fixtureEvent).result =
      .error { code := some "InvalidDocument" } :=
  (c9_delete_propagates ssmDeleteGone fixtureEvent).2.1
    { code := some "InvalidDocument" } rfl

/-- C10: the key list computed for the tag-removal step from two makeTags
outputs of the same event never contains a system tag key — both computed
lists always carry the three system keys, so no system key can be
missing. -/
theorem c10_system_tags_never_removed (event : Event)
    (oldProps newProps : Properties) :
    (getMissingTags (makeTags event oldProps)
        (makeTags event newProps)).filter
      (fun k => k == "aws-cloudformation:stack-id" ||
        k == "aws-cloudformation:stack-name" ||
        k == "aws-cloudformation:logical-id") = [] := by
  rw [List.filter_eq_nil_iff]
  intro k hk
  rw [getMissingTags_eq, List.mem_filter] at hk
  obtain ⟨hmem, hdec⟩ := hk
  rw [Bool.not_eq_true', decide_eq_false_iff_not] at hdec
  intro hcontra
  apply hdec
  simp only [Bool.or_eq_true, beq_iff_eq] at hcontra
  rcases hcontra with (h | h) | h <;>
    · subst h
      simp [makeTags]

end SsmDoc
